import Mathlib

/-!
# Verification of the Oracle-Database-Simulator SQL engine

A shallow embedding of `src/utils/oracleParser.ts` (class `OracleParser`): the
dialect normalizer, statement dispatcher, the statement executors, the WHERE
evaluator and the execution-plan estimator, together with theorems settling the
frozen claims about this engine.

Modelling conventions:
* JavaScript strings are Lean `String`s; the regex-driven parsing steps of the
  source are rendered as hand-written scanners that mirror the concrete
  regular expressions (leftmost match, ordered alternation, greedy/lazy
  quantifiers) used at each site.  Scanners recurse on an explicit fuel
  bounded by the string length so that every definition is structurally
  recursive and evaluates inside the kernel.
* JavaScript dynamic values stored in rows are modelled by `JSVal`
  (string / number / undefined); a JS object key set to `undefined` is
  observationally identical to an absent key for every read the engine
  performs, and both are modelled by `JSVal.vUndef`.
* JS numbers are modelled exactly by `ℚ`.  IEEE-754 rounding and infinities
  are not modelled; all numeric literals handled by the claims are small
  decimal numerals on which float and rational arithmetic agree.
* `performance.now` timing (`executionTime`) is wall-clock measurement and is
  outside the embedding; the ambient clock (`new Date()`) is threaded
  explicitly as an `Env` value.
-/

namespace OracleSim

/-- A JavaScript dynamic value as stored in a row: string, number
(modelled exactly as a rational), or `undefined`.  `vNaN`/`vInfinity` are
produced only by the `eval` arithmetic of the DUAL path (division by zero);
they are never stored in a table row. -/
inductive JSVal where
  | vStr (s : String)
  | vNum (q : ℚ)
  | vUndef
  | vNaN
  | vInfinity
  deriving DecidableEq, Repr

open JSVal

/-- JS word character, the regex class `\w` = `[A-Za-z0-9_]`. -/
def isWordChar (c : Char) : Bool :=
  c.isAlpha || c.isDigit || c == '_'

/-! Kernel-evaluable counterparts of the JS string primitives the source
uses (`toUpperCase`, `trim`, `split` on a character, `startsWith`,
`endsWith`, `slice`, relational comparison, decimal parsing/printing),
implemented over the character list so that concrete runs reduce inside the
kernel.  All inputs of interest are ASCII, where these agree with the
JS (UTF-16) semantics. -/

/-- JS `toUpperCase`. -/
def toUpperStr (s : String) : String :=
  String.mk (s.data.map Char.toUpper)

/-- JS `trim`. -/
def trimStr (s : String) : String :=
  String.mk (((s.data.dropWhile Char.isWhitespace).reverse.dropWhile
    Char.isWhitespace).reverse)

/-- JS `startsWith`. -/
def strStartsWith (s p : String) : Bool :=
  let rec go : List Char → List Char → Bool
    | _, [] => true
    | [], _ :: _ => false
    | c :: cs, q :: qs => c == q && go cs qs
  go s.data p.data

/-- JS `endsWith`. -/
def strEndsWith (s p : String) : Bool :=
  strStartsWith (String.mk s.data.reverse) (String.mk p.data.reverse)

/-- Drop the first `n` characters. -/
def strDrop (s : String) (n : Nat) : String :=
  String.mk (s.data.drop n)

/-- Drop the last `n` characters. -/
def strDropRight (s : String) (n : Nat) : String :=
  String.mk ((s.data.reverse.drop n).reverse)

/-- JS `split` on a one-character separator (every `split` of the source
uses `','` or `'='`): `"".split` is `[""]`, separators at the ends produce
empty pieces. -/
def splitOnChar (sep : Char) (s : String) : List String :=
  go [] s.data
where
  go : List Char → List Char → List String
    | acc, [] => [String.mk acc.reverse]
    | acc, c :: cs =>
      if c == sep then String.mk acc.reverse :: go [] cs
      else go (c :: acc) cs

/-- Strict lexicographic code-unit comparison of JS `<` on strings. -/
def charListLt : List Char → List Char → Bool
  | [], [] => false
  | [], _ :: _ => true
  | _ :: _, [] => false
  | a :: as, b :: bs =>
    if a.toNat < b.toNat then true
    else if b.toNat < a.toNat then false
    else charListLt as bs

/-- The numeric value of a run of decimal digits. -/
def digitsToNat (l : List Char) : Nat :=
  l.foldl (fun n c => n * 10 + (c.toNat - 48)) 0

/-- Case-insensitive character equality (via `toUpper`, ASCII). -/
def charEqCI (a b : Char) : Bool :=
  a.toUpper == b.toUpper

/-- Does `l` start with `pat`, comparing case-insensitively? -/
def startsWithCI : List Char → List Char → Bool
  | _, [] => true
  | [], _ :: _ => false
  | c :: cs, p :: ps => charEqCI c p && startsWithCI cs ps

/-- Substring containment: JS `String.prototype.includes` (the call sites
apply it to already upper-cased text, so plain equality suffices). -/
def containsSub (s pat : String) : Bool :=
  let rec go : List Char → Bool
    | [] => pat.data.isPrefixOf []
    | c :: cs => pat.data.isPrefixOf (c :: cs) || go cs
  go s.data

/-- Length of the maximal whitespace run at the front of `l` (regex `\s*`). -/
def wsRunLen : List Char → Nat
  | [] => 0
  | c :: cs => if c.isWhitespace then wsRunLen cs + 1 else 0

/-- Length of the maximal word-character run at the front of `l` (regex `\w*`). -/
def wordRunLen : List Char → Nat
  | [] => 0
  | c :: cs => if isWordChar c then wordRunLen cs + 1 else 0

/-- Length of the maximal digit run at the front of `l` (regex `\d*`). -/
def digitRunLen : List Char → Nat
  | [] => 0
  | c :: cs => if c.isDigit then digitRunLen cs + 1 else 0

/-- JS `string.replace(/'/g, '')`: remove every apostrophe. -/
def stripQuotes (s : String) : String :=
  String.mk (s.data.filter (fun c => c ≠ '\''))

/-- JS `Number(s)` restricted to the forms the engine meets: after trimming,
the empty string is `0`, an optional sign followed by digits with at most one
decimal point is read exactly as a rational, anything else is `NaN`
(rendered as `none`).  IEEE-754 infinities/rounding are not modelled. -/
def jsToNumber (s : String) : Option ℚ :=
  let t := (trimStr s).data
  if t.isEmpty then some 0
  else
    let (sign, rest) :=
      match t with
      | '-' :: r => ((-1 : ℤ), r)
      | '+' :: r => ((1 : ℤ), r)
      | r => ((1 : ℤ), r)
    let intLen := digitRunLen rest
    let intPart := rest.take intLen
    let afterInt := rest.drop intLen
    match afterInt with
    | [] =>
      if intLen = 0 then none
      else some ((sign * (digitsToNat intPart : ℤ) : ℤ) : ℚ)
    | '.' :: fracRest =>
      let fracLen := digitRunLen fracRest
      if fracLen = 0 ∧ intLen = 0 then none
      else if fracRest.drop fracLen ≠ [] then none
      else
        let fracPart := fracRest.take fracLen
        some (Rat.divInt (sign * (digitsToNat (intPart ++ fracPart) : ℤ))
          (((10 : ℕ) ^ fracLen : ℕ) : ℤ))
    | _ => none

/-! ## Rows and the catalog (`src/types/oracle.ts` and the `tables` map) -/

/-- A table row: `Record<string, unknown>`, an insertion-ordered object whose
values are dynamic scalars.  Reading an absent key yields `undefined`. -/
def Row := List (String × JSVal)

instance : DecidableEq Row := inferInstanceAs (DecidableEq (List (String × JSVal)))

instance : Repr Row := inferInstanceAs (Repr (List (String × JSVal)))

/-- `row[k]` — JS property read: first (and only, keys are unique) binding,
`undefined` when the key is absent. -/
def rowGet (row : Row) (k : String) : JSVal :=
  match row.find? (fun kv => kv.1 == k) with
  | some kv => kv.2
  | none => vUndef

/-- `row[k] = v` — JS property write: overwrite in place when the key exists,
else append (JS objects preserve insertion order). -/
def rowSet (row : Row) (k : String) (v : JSVal) : Row :=
  match row with
  | [] => [(k, v)]
  | kv :: rest => if kv.1 == k then (k, v) :: rest else kv :: rowSet rest k v

/-- `OracleColumn`: only `name`, `dataType`, `nullable` and `length` are ever
written or read by the engine (`defaultValue`/`precision`/`scale` are declared
in the interface but never populated). -/
structure OracleColumn where
  name : String
  dataType : String
  nullable : Bool
  length : Option Nat := none
  deriving DecidableEq, Repr

/-- `OracleIndex` as in `src/types/oracle.ts` (`type` is the literal string
union; only `"BTREE"` is ever produced). -/
structure OracleIndex where
  name : String
  columns : List String
  unique : Bool
  type : String
  deriving DecidableEq, Repr

/-- `OracleConstraint` — present in the data model, never populated by any
executor of this engine. -/
structure OracleConstraint where
  name : String
  ctype : String
  columns : List String
  referencedTable : Option String := none
  referencedColumns : Option (List String) := none
  deriving DecidableEq, Repr

/-- `OracleTable`; `created` holds the `new Date()` timestamp rendered as a
string from the ambient clock. -/
structure OracleTable where
  name : String
  columns : List OracleColumn
  data : List Row
  indexes : List OracleIndex
  constraints : List OracleConstraint
  created : String
  deriving DecidableEq, Repr

/-- The catalog `tables : Map<string, OracleTable>`: an insertion-ordered map
keyed by the upper-cased table name. -/
def Catalog := List (String × OracleTable)

instance : DecidableEq Catalog :=
  inferInstanceAs (DecidableEq (List (String × OracleTable)))

/-- `Map.get` — exact string key lookup. -/
def mapGet (st : Catalog) (k : String) : Option OracleTable :=
  match st.find? (fun kv => kv.1 == k) with
  | some kv => some kv.2
  | none => none

/-- `Map.has`. -/
def mapHas (st : Catalog) (k : String) : Bool :=
  st.any (fun kv => kv.1 == k)

/-- `Map.set` — update in place when the key exists (keeping its position),
else append. -/
def mapSet (st : Catalog) (k : String) (v : OracleTable) : Catalog :=
  match st with
  | [] => [(k, v)]
  | kv :: rest => if kv.1 == k then (k, v) :: rest else kv :: mapSet rest k v

/-- `Map.delete`. -/
def mapDelete (st : Catalog) (k : String) : Catalog :=
  st.filter (fun kv => kv.1 ≠ k)

/-! ## Results, plans, and the ambient clock -/

/-- `ExecutionPlan` (`children` is declared in the interface but never
produced by `generateExecutionPlan`). -/
structure ExecutionPlan where
  operation : String
  object : String
  cost : Nat
  cardinality : Nat
  bytes : Nat
  time : String
  deriving DecidableEq, Repr

/-- `QueryResult`.  `executionTime` (a `performance.now` wall-clock
measurement attached uniformly by the dispatcher) is outside the embedding. -/
structure QueryResult where
  success : Bool
  data : Option (List Row) := none
  columns : Option (List String) := none
  rowCount : Option Nat := none
  message : Option String := none
  error : Option String := none
  executionPlan : Option ExecutionPlan := none
  deriving DecidableEq, Repr

/-- The ambient clock: `new Date()` rendered the two ways the engine uses it —
`today` is `toISOString().split('T')[0]` (`YYYY-MM-DD`), `nowIso` the full
`toISOString()` (also standing in for the `created` timestamp). -/
structure Env where
  today : String
  nowIso : String
  deriving DecidableEq, Repr

/-! ## Regex mirrors

Each `match…` definition below mirrors one concrete regular expression of the
source, reproducing leftmost-match scanning, ordered alternation, and
greedy/lazy quantifier backtracking for exactly that pattern.  The JS `.`
metacharacter excludes line terminators, mirrored by `dotStar`. -/

/-- JS regex line terminators (not matched by `.`). -/
def isNewline (c : Char) : Bool :=
  c = '\n' || c = '\r' || c = ' ' || c = ' '

/-- `(.*)` / greedy dot-run: maximal non-line-terminator prefix. -/
def dotStar (l : List Char) : List Char :=
  l.takeWhile (fun c => !isNewline c)

/-- Case-sensitive prefix test on character lists. -/
def startsWithCS : List Char → List Char → Bool
  | _, [] => true
  | [], _ :: _ => false
  | c :: cs, p :: ps => c == p && startsWithCS cs ps

/-- Leftmost-match scanning: try the anchored attempt at every successive
start position, as the JS regex engine does for an unanchored pattern. -/
def scanFirst {α : Type} (att : List Char → Option α) : List Char → Option α
  | [] => att []
  | c :: cs =>
    match att (c :: cs) with
    | some r => some r
    | none => scanFirst att cs

/-- Index of the last `')'` reachable by `(.*)` (i.e. within the maximal
non-line-terminator prefix), as produced by a greedy `(.*)\)` tail. -/
def lastParenIdx : List Char → Option Nat
  | [] => none
  | c :: cs =>
    match lastParenIdx cs with
    | some i => if isNewline c then none else some (i + 1)
    | none => if c = ')' then some 0 else none

/-- A lazy capture `(.*?)` followed by the tail pattern `tail`: grow the
capture one (non-line-terminator) character at a time until the tail
matches. -/
def lazyCapture {α : Type} (tail : List Char → Option α) :
    List Char → List Char → Option (String × α)
  | pre, s =>
    match tail s with
    | some a => some (String.mk pre.reverse, a)
    | none =>
      match s with
      | [] => none
      | c :: cs => if isNewline c then none else lazyCapture tail (c :: pre) cs

/-- Backtracking of a greedy `\s+` followed by a lazy capture: try the capture
starting after `k` whitespace characters, giving back one at a time
(`k`, `k-1`, …, `1`). -/
def wsBacktrack {α : Type} (tail : List Char → Option α) :
    Nat → List Char → Option (String × α)
  | 0, _ => none
  | k + 1, rest =>
    match lazyCapture tail [] (rest.drop (k + 1)) with
    | some r => some r
    | none => wsBacktrack tail k rest

/-- Tail `(?:\s+WHERE\s+(.*))?` — `none` when the optional group does not
match (the capture is undefined). -/
def whereTail (l : List Char) : Option String :=
  let r := wsRunLen l
  if r = 0 then none
  else if !startsWithCI (l.drop r) "WHERE".data then none
  else
    let afterW := l.drop (r + 5)
    let r2 := wsRunLen afterW
    if r2 = 0 then none
    else some (String.mk (dotStar (afterW.drop r2)))

/-- Tail `\s+FROM\s+(\w+)(?:\s+WHERE\s+(.*))?` of the SELECT pattern. -/
def selectTail (l : List Char) : Option (String × Option String) :=
  let r := wsRunLen l
  if r = 0 then none
  else if !startsWithCI (l.drop r) "FROM".data then none
  else
    let afterFrom := l.drop (r + 4)
    let r2 := wsRunLen afterFrom
    if r2 = 0 then none
    else
      let t := wordRunLen (afterFrom.drop r2)
      if t = 0 then none
      else
        let table := String.mk ((afterFrom.drop r2).take t)
        some (table, whereTail ((afterFrom.drop r2).drop t))

/-- `/SELECT\s+(.*?)\s+FROM\s+(\w+)(?:\s+WHERE\s+(.*))?/i` of
`executeSelect`: columns text, table name, optional WHERE text. -/
def matchSelect (s : String) : Option (String × String × Option String) :=
  scanFirst
    (fun l =>
      if !startsWithCI l "SELECT".data then none
      else
        let rest := l.drop 6
        let w := wsRunLen rest
        if w = 0 then none
        else
          (wsBacktrack selectTail w rest).map
            (fun (cols, table, wc) => (cols, table, wc)))
    s.data

/-- `/CREATE\s+TABLE\s+(\w+)\s*\((.*)\)/i` of `executeCreateTable`:
table name and the parenthesised column-definition text (greedy `(.*)` runs
to the last reachable `')'`). -/
def matchCreateTable (s : String) : Option (String × String) :=
  scanFirst
    (fun l =>
      if !startsWithCI l "CREATE".data then none
      else
        let r1 := l.drop 6
        let w1 := wsRunLen r1
        if w1 = 0 then none
        else if !startsWithCI (r1.drop w1) "TABLE".data then none
        else
          let r2 := r1.drop (w1 + 5)
          let w2 := wsRunLen r2
          if w2 = 0 then none
          else
            let t := wordRunLen (r2.drop w2)
            if t = 0 then none
            else
              let name := String.mk ((r2.drop w2).take t)
              let r3 := (r2.drop w2).drop t
              let w3 := wsRunLen r3
              match r3.drop w3 with
              | '(' :: body =>
                match lastParenIdx body with
                | some i => some (name, String.mk (body.take i))
                | none => none
              | _ => none)
    s.data

/-- Tail `\s*VALUES\s*\((.*)\)` of the INSERT pattern. -/
def valuesTail (l : List Char) : Option String :=
  let w := wsRunLen l
  if !startsWithCI (l.drop w) "VALUES".data then none
  else
    let r := l.drop (w + 6)
    let w2 := wsRunLen r
    match r.drop w2 with
    | '(' :: body =>
      match lastParenIdx body with
      | some i => some (String.mk (body.take i))
      | none => none
    | _ => none

/-- The lazy column group `\((.*?)\)` of the INSERT pattern followed by
`valuesTail`: successive `')'` candidates left to right. -/
def insertColGroup : List Char → List Char → Option (String × String)
  | _, [] => none
  | pre, c :: cs =>
    if c = ')' then
      match valuesTail cs with
      | some vals => some (String.mk pre.reverse, vals)
      | none => if isNewline c then none else insertColGroup (c :: pre) cs
    else if isNewline c then none
    else insertColGroup (c :: pre) cs

/-- `/INSERT\s+INTO\s+(\w+)\s*(?:\((.*?)\))?\s*VALUES\s*\((.*)\)/i` of
`executeInsert`: table name, optional column-list text, values text. -/
def matchInsert (s : String) : Option (String × Option String × String) :=
  scanFirst
    (fun l =>
      if !startsWithCI l "INSERT".data then none
      else
        let r1 := l.drop 6
        let w1 := wsRunLen r1
        if w1 = 0 then none
        else if !startsWithCI (r1.drop w1) "INTO".data then none
        else
          let r2 := r1.drop (w1 + 4)
          let w2 := wsRunLen r2
          if w2 = 0 then none
          else
            let t := wordRunLen (r2.drop w2)
            if t = 0 then none
            else
              let table := String.mk ((r2.drop w2).take t)
              let r3 := (r2.drop w2).drop t
              let g := wsRunLen r3
              match r3.drop g with
              | '(' :: body =>
                (insertColGroup [] body).map
                  (fun (cols, vals) => (table, some cols, vals))
              | rest =>
                (valuesTail rest).map (fun vals => (table, none, vals)))
    s.data

/-- `/UPDATE\s+(\w+)\s+SET\s+(.*?)(?:\s+WHERE\s+(.*))?/i` of `executeUpdate`.
Because the lazy `(.*?)` is tried empty first and the trailing group is
optional, every successful match captures an empty SET clause and an
undefined WHERE clause — the match succeeds as soon as `UPDATE\s+\w+\s+SET\s+`
is found, so the captures are always `("", undefined)`. -/
def matchUpdate (s : String) : Option (String × String × Option String) :=
  scanFirst
    (fun l =>
      if !startsWithCI l "UPDATE".data then none
      else
        let r1 := l.drop 6
        let w1 := wsRunLen r1
        if w1 = 0 then none
        else
          let t := wordRunLen (r1.drop w1)
          if t = 0 then none
          else
            let table := String.mk ((r1.drop w1).take t)
            let r2 := (r1.drop w1).drop t
            let w2 := wsRunLen r2
            if w2 = 0 then none
            else if !startsWithCI (r2.drop w2) "SET".data then none
            else
              let r3 := r2.drop (w2 + 3)
              if wsRunLen r3 = 0 then none
              else some (table, "", none))
    s.data

/-- `/DELETE\s+FROM\s+(\w+)(?:\s+WHERE\s+(.*))?/i` of `executeDelete`. -/
def matchDelete (s : String) : Option (String × Option String) :=
  scanFirst
    (fun l =>
      if !startsWithCI l "DELETE".data then none
      else
        let r1 := l.drop 6
        let w1 := wsRunLen r1
        if w1 = 0 then none
        else if !startsWithCI (r1.drop w1) "FROM".data then none
        else
          let r2 := r1.drop (w1 + 4)
          let w2 := wsRunLen r2
          if w2 = 0 then none
          else
            let t := wordRunLen (r2.drop w2)
            if t = 0 then none
            else
              let table := String.mk ((r2.drop w2).take t)
              some (table, whereTail ((r2.drop w2).drop t)))
    s.data

/-- `/DROP\s+TABLE\s+(\w+)/i` of `executeDropTable`. -/
def matchDropTable (s : String) : Option String :=
  scanFirst
    (fun l =>
      if !startsWithCI l "DROP".data then none
      else
        let r1 := l.drop 4
        let w1 := wsRunLen r1
        if w1 = 0 then none
        else if !startsWithCI (r1.drop w1) "TABLE".data then none
        else
          let r2 := r1.drop (w1 + 5)
          let w2 := wsRunLen r2
          if w2 = 0 then none
          else
            let t := wordRunLen (r2.drop w2)
            if t = 0 then none
            else some (String.mk ((r2.drop w2).take t)))
    s.data

/-- The `(.*?)\)` group of the CREATE INDEX pattern: lazy run to the first
reachable `')'`. -/
def firstParenContent : List Char → List Char → Option String
  | _, [] => none
  | pre, c :: cs =>
    if c = ')' then some (String.mk pre.reverse)
    else if isNewline c then none
    else firstParenContent (c :: pre) cs

/-- Tail `INDEX\s+(\w+)\s+ON\s+(\w+)\s*\((.*?)\)` of the CREATE INDEX
pattern. -/
def indexTail (l : List Char) : Option (String × String × String) :=
  if !startsWithCI l "INDEX".data then none
  else
    let r1 := l.drop 5
    let w1 := wsRunLen r1
    if w1 = 0 then none
    else
      let t := wordRunLen (r1.drop w1)
      if t = 0 then none
      else
        let iname := String.mk ((r1.drop w1).take t)
        let r2 := (r1.drop w1).drop t
        let w2 := wsRunLen r2
        if w2 = 0 then none
        else if !startsWithCI (r2.drop w2) "ON".data then none
        else
          let r3 := r2.drop (w2 + 2)
          let w3 := wsRunLen r3
          if w3 = 0 then none
          else
            let t2 := wordRunLen (r3.drop w3)
            if t2 = 0 then none
            else
              let tname := String.mk ((r3.drop w3).take t2)
              let r4 := (r3.drop w3).drop t2
              let w4 := wsRunLen r4
              match r4.drop w4 with
              | '(' :: body =>
                (firstParenContent [] body).map (fun cols => (iname, tname, cols))
              | _ => none

/-- `/CREATE\s+(?:UNIQUE\s+)?INDEX\s+(\w+)\s+ON\s+(\w+)\s*\((.*?)\)/i` of
`executeCreateIndex`: index name, table name, column-list text. -/
def matchCreateIndex (s : String) : Option (String × String × String) :=
  scanFirst
    (fun l =>
      if !startsWithCI l "CREATE".data then none
      else
        let r1 := l.drop 6
        let w1 := wsRunLen r1
        if w1 = 0 then none
        else
          let rest := r1.drop w1
          let withUnique :=
            if startsWithCI rest "UNIQUE".data ∧ wsRunLen (rest.drop 6) ≠ 0 then
              indexTail (rest.drop (6 + wsRunLen (rest.drop 6)))
            else none
          match withUnique with
          | some r => some r
          | none => indexTail rest)
    s.data

/-- Tail `\s+(\w+)` shared by the DESCRIBE pattern. -/
def descTail (l : List Char) : Option String :=
  let w := wsRunLen l
  if w = 0 then none
  else
    let t := wordRunLen (l.drop w)
    if t = 0 then none
    else some (String.mk ((l.drop w).take t))

/-- `/DESC(?:RIBE)?\s+(\w+)/i` of `executeDescribe`. -/
def matchDescribe (s : String) : Option String :=
  scanFirst
    (fun l =>
      if !startsWithCI l "DESC".data then none
      else
        let withRibe :=
          if startsWithCI (l.drop 4) "RIBE".data then descTail (l.drop 8)
          else none
        match withRibe with
        | some r => some r
        | none => descTail (l.drop 4))
    s.data

/-- Tail `\s+FROM\s+DUAL` of the DUAL pattern (no word boundary after
`DUAL`). -/
def dualTail (l : List Char) : Option Unit :=
  let r := wsRunLen l
  if r = 0 then none
  else if !startsWithCI (l.drop r) "FROM".data then none
  else
    let afterFrom := l.drop (r + 4)
    let r2 := wsRunLen afterFrom
    if r2 = 0 then none
    else if startsWithCI (afterFrom.drop r2) "DUAL".data then some () else none

/-- `/SELECT\s+(.*?)\s+FROM\s+DUAL/i` of `executeDualQuery`: the raw
expression text. -/
def matchDualSelect (s : String) : Option String :=
  scanFirst
    (fun l =>
      if !startsWithCI l "SELECT".data then none
      else
        let rest := l.drop 6
        let w := wsRunLen rest
        if w = 0 then none
        else (wsBacktrack dualTail w rest).map (fun (expr, _) => expr))
    s.data

/-- The `(.+)` value capture preceded by a greedy `\s*` in the atomic
condition pattern: give whitespace back one character at a time until at
least one `.`-matchable character remains. -/
def valueCapture (s : List Char) : Option String :=
  go (wsRunLen s)
where
  go : Nat → Option String
    | 0 =>
      let run := dotStar s
      if run ≠ [] then some (String.mk run) else none
    | j + 1 =>
      let run := dotStar (s.drop (j + 1))
      if run ≠ [] then some (String.mk run) else go j

/-- `/(\w+)\s*(=|!=|<>|<|>|<=|>=)\s*(.+)/` of `evaluateWhereClause`: column
name, operator token, value text.  Ordered alternation: `<` is tried before
`<=` (and `>` before `>=`), so the two-character tokens `<=`/`>=` are never
produced — `X <= 5` parses as operator `<` with value `= 5`. -/
def matchCondition (s : String) : Option (String × String × String) :=
  scanFirst
    (fun l =>
      let t := wordRunLen l
      if t = 0 then none
      else
        let col := String.mk (l.take t)
        let rest := (l.drop t).drop (wsRunLen (l.drop t))
        let tryOp : String → Option (String × String × String) := fun tok =>
          if startsWithCS rest tok.data then
            (valueCapture (rest.drop tok.length)).map (fun v => (col, tok, v))
          else none
        (((((((tryOp "=").orElse (fun _ => tryOp "!=")).orElse
            (fun _ => tryOp "<>")).orElse (fun _ => tryOp "<")).orElse
            (fun _ => tryOp ">")).orElse (fun _ => tryOp "<=")).orElse
            (fun _ => tryOp ">=")))
    s.data

/-! ## The two capturing/plain splits used by the engine -/

/-- A match of `\s+(AND|OR)\s+` (case-insensitive) beginning exactly here:
returns the captured keyword (original case) and the rest after the match.
`AND`/`OR` start with non-whitespace characters, so the leading greedy `\s+`
always ends at the first non-whitespace character and the two alternatives
are mutually exclusive. -/
def sepAt (l : List Char) : Option (String × List Char) :=
  let w := wsRunLen l
  if w = 0 then none
  else
    let after := l.drop w
    if startsWithCI after "AND".data then
      let w2 := wsRunLen (after.drop 3)
      if w2 = 0 then none
      else some (String.mk (after.take 3), (after.drop 3).drop w2)
    else if startsWithCI after "OR".data then
      let w2 := wsRunLen (after.drop 2)
      if w2 = 0 then none
      else some (String.mk (after.take 2), (after.drop 2).drop w2)
    else none

/-- Leftmost separator match: the piece before it, the captured keyword, and
the rest after it. -/
def findSep : List Char → Option (List Char × String × List Char)
  | [] => none
  | c :: cs =>
    match sepAt (c :: cs) with
    | some (tok, rest) => some ([], tok, rest)
    | none => (findSep cs).map (fun (p, tok, rest) => (c :: p, tok, rest))

/-- `whereClause.split(/\s+(AND|OR)\s+/i)`: pieces interleaved with the
captured separators (JS `split` with a capture group).  Fuel is bounded by
the string length; every separator consumes at least four characters. -/
def splitAndOrGo : Nat → List Char → List String
  | 0, l => [String.mk l]
  | fuel + 1, l =>
    match findSep l with
    | none => [String.mk l]
    | some (piece, tok, rest) => String.mk piece :: tok :: splitAndOrGo fuel rest

/-- The split used by `evaluateWhereClause`. -/
def splitAndOr (s : String) : List String :=
  splitAndOrGo s.length s.data

/-- The even-indexed elements of a list — the loop
`for (let i = 0; i < conditions.length; i += 2)` visits exactly these
(the interleaved captured separators sit at odd indices). -/
def evenIdx {α : Type} : List α → List α
  | [] => []
  | [a] => [a]
  | a :: _ :: rest => a :: evenIdx rest

/-- Leftmost `\s+` match for `split(/\s+/)`: piece before it and rest after. -/
def findWsSep : List Char → Option (List Char × List Char)
  | [] => none
  | c :: cs =>
    if c.isWhitespace then some ([], cs.drop (wsRunLen cs))
    else (findWsSep cs).map (fun (p, r) => (c :: p, r))

/-- `s.split(/\s+/)` as used on trimmed column definitions. -/
def splitWsGo : Nat → List Char → List String
  | 0, l => [String.mk l]
  | fuel + 1, l =>
    match findWsSep l with
    | none => [String.mk l]
    | some (p, r) => String.mk p :: splitWsGo fuel r

/-- JS `String.prototype.split(/\s+/)`. -/
def splitWs (s : String) : List String :=
  splitWsGo s.length s.data

/-! ## Dialect normalizer (`normalizeOracleSQL`) -/

/-- One global-replace pass: at each position, if the pattern attempt
fires, emit the replacement and resume after the consumed text, else copy the
character (JS `replace` with the `g` flag, non-overlapping leftmost
matches).  Every attempt consumes at least one character, so fuel bounded by
the input length suffices. -/
def replaceScan (att : List Char → Option (List Char × List Char)) :
    Nat → List Char → List Char
  | 0, l => l
  | _ + 1, [] => []
  | fuel + 1, c :: cs =>
    match att (c :: cs) with
    | some (rep, rest) => rep ++ replaceScan att fuel rest
    | none => c :: replaceScan att fuel cs

/-- Run one replace pass over a string. -/
def runReplace (att : List Char → Option (List Char × List Char)) (s : String) :
    String :=
  String.mk (replaceScan att (s.data.length + 1) s.data)

/-- `/VARCHAR2\((\d+)\)/gi → VARCHAR($1)`. -/
def attVarchar2 (l : List Char) : Option (List Char × List Char) :=
  if startsWithCI l "VARCHAR2(".data then
    let rest := l.drop 9
    let d := digitRunLen rest
    if d = 0 then none
    else
      match rest.drop d with
      | ')' :: r => some ("VARCHAR(".data ++ rest.take d ++ [')'], r)
      | _ => none
  else none

/-- `/NUMBER\((\d+),(\d+)\)/gi → DECIMAL($1,$2)`. -/
def attNumberPS (l : List Char) : Option (List Char × List Char) :=
  if startsWithCI l "NUMBER(".data then
    let rest := l.drop 7
    let d1 := digitRunLen rest
    if d1 = 0 then none
    else
      match rest.drop d1 with
      | ',' :: r2 =>
        let d2 := digitRunLen r2
        if d2 = 0 then none
        else
          match r2.drop d2 with
          | ')' :: r3 =>
            some ("DECIMAL(".data ++ rest.take d1 ++ [','] ++ r2.take d2 ++ [')'], r3)
          | _ => none
      | _ => none
  else none

/-- `/NUMBER\((\d+)\)/gi → INTEGER`. -/
def attNumberP (l : List Char) : Option (List Char × List Char) :=
  if startsWithCI l "NUMBER(".data then
    let rest := l.drop 7
    let d := digitRunLen rest
    if d = 0 then none
    else
      match rest.drop d with
      | ')' :: r => some ("INTEGER".data, r)
      | _ => none
  else none

/-- A case-insensitive literal rewrite (`/pat/gi → rep`). -/
def attLiteral (pat rep : String) (l : List Char) :
    Option (List Char × List Char) :=
  if startsWithCI l pat.data then some (rep.data, l.drop pat.length) else none

/-- `/\|\|/g → +` (case-sensitive, the concatenation operator). -/
def attConcat (l : List Char) : Option (List Char × List Char) :=
  if startsWithCS l "||".data then some (['+'], l.drop 2) else none

/-- `normalizeOracleSQL` — the ordered rewrite chain applied before
dispatch.  Note that `/DATE/gi` and the others carry no word boundaries, so
they also fire inside longer words (`UPDATE` contains `DATE`, `SYSDATE` is
consumed by the `DATE` rewrite before its own rule runs, …). -/
def normalizeOracleSQL (sql : String) : String :=
  runReplace attConcat
    (runReplace (attLiteral "NVL(" "COALESCE(")
      (runReplace (attLiteral "SYSTIMESTAMP" "CURRENT_TIMESTAMP")
        (runReplace (attLiteral "SYSDATE" "CURRENT_TIMESTAMP")
          (runReplace (attLiteral "DATE" "TIMESTAMP")
            (runReplace (attLiteral "NUMBER" "DECIMAL(38,10)")
              (runReplace attNumberP
                (runReplace attNumberPS
                  (runReplace attVarchar2 sql))))))))

/-! ## WHERE-clause evaluation (`evaluateWhereClause`) -/

/-- JS loose equality `columnValue == compareValue`, where the right operand
is always a string: a stored string compares by string equality, a stored
number coerces the literal with `Number` (`NaN` compares unequal), and
`undefined` is loosely equal only to `null`/`undefined`, never to a string. -/
def jsLooseEq : JSVal → String → Bool
  | vStr s, c => s == c
  | vNum q, c =>
    match jsToNumber c with
    | some r => q == r
    | none => false
  | vUndef, _ => false
  | vNaN, _ => false
  | vInfinity, _ => false

/-- JS `columnValue < compareValue`: two strings compare lexicographically by
code unit; a stored number coerces the literal with `Number`; `undefined`
coerces to `NaN`, which satisfies no relational comparison. -/
def jsLt : JSVal → String → Bool
  | vStr s, c => charListLt s.data c.data
  | vNum q, c =>
    match jsToNumber c with
    | some r => decide (q < r)
    | none => false
  | vUndef, _ => false
  | vNaN, _ => false
  | vInfinity, _ => false

/-- JS `columnValue > compareValue` (see `jsLt`). -/
def jsGt : JSVal → String → Bool
  | vStr s, c => charListLt c.data s.data
  | vNum q, c =>
    match jsToNumber c with
    | some r => decide (r < q)
    | none => false
  | vUndef, _ => false
  | vNaN, _ => false
  | vInfinity, c => (jsToNumber c).isSome

/-- JS `columnValue <= compareValue` (see `jsLt`). -/
def jsLe : JSVal → String → Bool
  | vStr s, c => !charListLt c.data s.data
  | vNum q, c =>
    match jsToNumber c with
    | some r => decide (q ≤ r)
    | none => false
  | vUndef, _ => false
  | vNaN, _ => false
  | vInfinity, _ => false

/-- JS `columnValue >= compareValue` (see `jsLt`). -/
def jsGe : JSVal → String → Bool
  | vStr s, c => !charListLt s.data c.data
  | vNum q, c =>
    match jsToNumber c with
    | some r => decide (r ≤ q)
    | none => false
  | vUndef, _ => false
  | vNaN, _ => false
  | vInfinity, c => (jsToNumber c).isSome

/-- The body of the `switch (operator)` of `evaluateWhereClause`: look the
column up (upper-cased) in the row, strip every apostrophe from the literal,
and apply the operator; an unknown token leaves `result = false`. -/
def condSatisfied (row : Row) (column opTok value : String) : Bool :=
  let columnValue := rowGet row (toUpperStr column)
  let compareValue := stripQuotes value
  match opTok with
  | "=" => jsLooseEq columnValue compareValue
  | "!=" => !jsLooseEq columnValue compareValue
  | "<>" => !jsLooseEq columnValue compareValue
  | "<" => jsLt columnValue compareValue
  | ">" => jsGt columnValue compareValue
  | "<=" => jsLe columnValue compareValue
  | ">=" => jsGe columnValue compareValue
  | _ => false

/-- One iteration of the condition loop: trim the piece, match the atomic
pattern; a piece that does not match is skipped (treated as satisfied). -/
def evalCond (row : Row) (piece : String) : Bool :=
  match matchCondition (trimStr piece) with
  | some (col, op, v) => condSatisfied row col op v
  | none => true

/-- `evaluateWhereClause`: split on `\s+(AND|OR)\s+` keeping the captured
keywords at odd indices, visit the even indices only, and return `false` at
the first failing matched condition — i.e. the conjunction of every matched
condition, with the separating keyword never consulted. -/
def evaluateWhereClause (row : Row) (whereClause : String) : Bool :=
  (evenIdx (splitAndOr whereClause)).all (evalCond row)

/-! ## Value and column-definition parsing -/

/-- `parseValues`: split on commas and trim; a single-quoted token drops its
first and last character, a token `Number` accepts becomes a number, anything
else is kept as trimmed text. -/
def parseValues (valueList : String) : List JSVal :=
  (splitOnChar ',' valueList).map (fun value =>
    let trimmed := trimStr value
    if strStartsWith trimmed "'" ∧ strEndsWith trimmed "'" then
      vStr (strDropRight (strDrop trimmed 1) 1)
    else
      match jsToNumber trimmed with
      | some q => vNum q
      | none => vStr trimmed)

/-- The `defs.forEach` body of `parseColumnDefinitions`, for one comma-split
definition piece: the first whitespace token is the (upper-cased) name, the
second the type (`'VARCHAR2(255)'` when missing or empty, JS `||`), and the
piece is nullable unless its upper-cased text contains `NOT NULL`. -/
def parseOneColumnDef (df : String) : OracleColumn :=
  let parts := splitWs (trimStr df)
  let name := parts.headD ""
  let dataType :=
    match parts.drop 1 with
    | [] => "VARCHAR2(255)"
    | d :: _ => if d = "" then "VARCHAR2(255)" else d
  { name := toUpperStr name
    dataType := dataType
    nullable := !containsSub (toUpperStr df) "NOT NULL" }

/-- `parseColumnDefinitions`: split the definition text on every comma (the
split is not parenthesis-aware) and parse each piece. -/
def parseColumnDefinitions (columnDefs : String) : List OracleColumn :=
  (splitOnChar ',' columnDefs).map parseOneColumnDef

/-! ## Execution-plan estimation -/

/-- `generateExecutionPlan`. -/
def generateExecutionPlan (operation object : String) (rows : Nat) :
    ExecutionPlan :=
  { operation := toUpperStr operation ++ " STATEMENT"
    object := toUpperStr object
    cost := max 1 (rows / 100)
    cardinality := rows
    bytes := rows * 100
    time := "00:00:01" }

/-! ## Statement executors

Each executor is a state transformer on the catalog, mirroring the in-place
mutation of `this.tables`. -/

/-- `executeSelect`. -/
def executeSelect (st : Catalog) (sql : String) : Catalog × QueryResult :=
  match matchSelect sql with
  | none => (st, { success := false, error := some "ORA-00936: missing expression" })
  | some (columns, tableName, whereClause) =>
    match mapGet st (toUpperStr tableName) with
    | none =>
      (st, { success := false
             error := some ("ORA-00942: table or view does not exist: " ++ tableName) })
    | some table =>
      let data :=
        match whereClause with
        | some wc =>
          if wc = "" then table.data
          else table.data.filter (fun row => evaluateWhereClause row wc)
        | none => table.data
      let proj :=
        if trimStr columns = "*" then
          (table.columns.map (fun col => col.name), data)
        else
          let resultColumns := ((splitOnChar ',' columns).map trimStr)
          (resultColumns,
           data.map (fun row =>
             resultColumns.foldl (fun nr col => rowSet nr col (rowGet row col)) []))
      (st, { success := true
             data := some proj.2
             columns := some proj.1
             rowCount := some proj.2.length
             executionPlan := some (generateExecutionPlan "SELECT" tableName data.length) })

/-- `executeCreateTable`. -/
def executeCreateTable (env : Env) (st : Catalog) (sql : String) :
    Catalog × QueryResult :=
  match matchCreateTable sql with
  | none => (st, { success := false, error := some "ORA-00907: missing right parenthesis" })
  | some (tableName, columnDefs) =>
    let tU := toUpperStr tableName
    if mapHas st tU then
      (st, { success := false
             error := some ("ORA-00955: name is already used by an existing object: "
               ++ tableName) })
    else
      (mapSet st tU
        { name := tU
          columns := parseColumnDefinitions columnDefs
          data := []
          indexes := []
          constraints := []
          created := env.nowIso },
       { success := true
         message := some ("Table " ++ tableName ++ " created.")
         rowCount := some 0 })

/-- The row built by the `columns.forEach((col, index) => …)` of
`executeInsert`: positional assignment, `undefined` past the end of the
value list. -/
def buildNewRow (columns : List String) (values : List JSVal) : Row :=
  go [] columns 0
where
  go (acc : Row) : List String → Nat → Row
    | [], _ => acc
    | c :: cs, i => go (rowSet acc c (values.getD i vUndef)) cs (i + 1)

/-- The `columnList ? columnList.split(',').map(trim) : table.columns.map(name)`
expression of `executeInsert` (JS truthiness: an absent *or empty* capture
falls back to the declared column order). -/
def insertColumns (table : OracleTable) (columnList : Option String) :
    List String :=
  match columnList with
  | some cl =>
    if cl = "" then table.columns.map (fun col => col.name)
    else (splitOnChar ',' cl).map trimStr
  | none => table.columns.map (fun col => col.name)

/-- `executeInsert`. -/
def executeInsert (st : Catalog) (sql : String) : Catalog × QueryResult :=
  match matchInsert sql with
  | none => (st, { success := false, error := some "ORA-00936: missing expression" })
  | some (tableName, columnList, valueList) =>
    match mapGet st (toUpperStr tableName) with
    | none =>
      (st, { success := false
             error := some ("ORA-00942: table or view does not exist: " ++ tableName) })
    | some table =>
      let values := parseValues valueList
      let columns := insertColumns table columnList
      let newRow := buildNewRow columns values
      (mapSet st (toUpperStr tableName) { table with data := table.data ++ [newRow] },
       { success := true, message := some "1 row created.", rowCount := some 1 })

/-- `applySetClause` on the comma-split assignment list, processed in order;
an assignment without `=` reads `undefined.replace`, raising a `TypeError`
that aborts the whole statement (the message text is the runtime's).  Returns
the row as mutated so far and the error, if any. -/
def applySetClause : Row → List String → Row × Option String
  | row, [] => (row, none)
  | row, a :: rest =>
    match ((splitOnChar '=' a).map trimStr) with
    | [] => (row, some "Cannot read properties of undefined (reading 'replace')")
    | [_] => (row, some "Cannot read properties of undefined (reading 'replace')")
    | column :: value :: _ =>
      applySetClause (rowSet row (toUpperStr column) (vStr (stripQuotes value))) rest

/-- The `table.data.forEach` loop of `executeUpdate`: each matching row is
mutated in place; a thrown `TypeError` aborts the loop, leaving the earlier
mutations (and the partially mutated row) behind.  Returns the resulting row
list, the update count, and the exception, if any. -/
def updateRows (assignments : List String) (whereClause : Option String) :
    List Row → List Row × Nat × Option String
  | [] => ([], 0, none)
  | row :: rest =>
    let hit :=
      match whereClause with
      | none => true
      | some wc => if wc = "" then true else evaluateWhereClause row wc
    if hit then
      match applySetClause row assignments with
      | (row', none) =>
        let (rs, n, e) := updateRows assignments whereClause rest
        (row' :: rs, n + 1, e)
      | (row', some msg) => (row' :: rest, 0, some msg)
    else
      let (rs, n, e) := updateRows assignments whereClause rest
      (row :: rs, n, e)

/-- `executeUpdate`; `Except.error` models the propagated `TypeError`, to be
rewrapped by the dispatcher's catch block. -/
def executeUpdate (st : Catalog) (sql : String) :
    Catalog × Except String QueryResult :=
  match matchUpdate sql with
  | none => (st, .ok { success := false, error := some "ORA-00936: missing expression" })
  | some (tableName, setClause, whereClause) =>
    match mapGet st (toUpperStr tableName) with
    | none =>
      (st, .ok { success := false
                 error := some ("ORA-00942: table or view does not exist: " ++ tableName) })
    | some table =>
      let (newData, n, exc) := updateRows (splitOnChar ',' setClause) whereClause table.data
      let st' := mapSet st (toUpperStr tableName) { table with data := newData }
      match exc with
      | some msg => (st', .error msg)
      | none =>
        (st', .ok { success := true
                    message := some (toString n ++ " row"
                      ++ (if n ≠ 1 then "s" else "") ++ " updated.")
                    rowCount := some n })

/-- `executeDelete`.  JS truthiness: an absent *or empty* WHERE capture takes
the delete-all branch. -/
def executeDelete (st : Catalog) (sql : String) : Catalog × QueryResult :=
  match matchDelete sql with
  | none => (st, { success := false, error := some "ORA-00936: missing expression" })
  | some (tableName, whereClause) =>
    match mapGet st (toUpperStr tableName) with
    | none =>
      (st, { success := false
             error := some ("ORA-00942: table or view does not exist: " ++ tableName) })
    | some table =>
      let initialCount := table.data.length
      let newData :=
        match whereClause with
        | some wc =>
          if wc = "" then []
          else table.data.filter (fun row => !evaluateWhereClause row wc)
        | none => []
      let deletedRows := initialCount - newData.length
      (mapSet st (toUpperStr tableName) { table with data := newData },
       { success := true
         message := some (toString deletedRows ++ " row"
           ++ (if deletedRows ≠ 1 then "s" else "") ++ " deleted.")
         rowCount := some deletedRows })

/-- `executeDropTable`. -/
def executeDropTable (st : Catalog) (sql : String) : Catalog × QueryResult :=
  match matchDropTable sql with
  | none => (st, { success := false, error := some "ORA-00942: table or view does not exist" })
  | some name =>
    let tU := toUpperStr name
    if !mapHas st tU then
      (st, { success := false
             error := some ("ORA-00942: table or view does not exist: " ++ tU) })
    else
      (mapDelete st tU,
       { success := true, message := some ("Table " ++ tU ++ " dropped."), rowCount := some 0 })

/-- `executeCreateIndex`. -/
def executeCreateIndex (st : Catalog) (sql : String) : Catalog × QueryResult :=
  match matchCreateIndex sql with
  | none => (st, { success := false, error := some "ORA-00907: missing right parenthesis" })
  | some (indexName, tableName, columnList) =>
    match mapGet st (toUpperStr tableName) with
    | none =>
      (st, { success := false
             error := some ("ORA-00942: table or view does not exist: " ++ tableName) })
    | some table =>
      let columns := ((splitOnChar ',' columnList).map trimStr)
      let isUnique := containsSub (toUpperStr sql) "UNIQUE"
      (mapSet st (toUpperStr tableName)
        { table with
          indexes := table.indexes
            ++ [{ name := toUpperStr indexName, columns := columns,
                  unique := isUnique, type := "BTREE" }] },
       { success := true
         message := some ("Index " ++ indexName ++ " created.")
         rowCount := some 0 })

/-- The per-column row of `executeDescribe`: `col.length` is never populated
by `parseColumnDefinitions`, and JS truthiness also drops a zero length. -/
def describeRow (col : OracleColumn) : Row :=
  [("Name", vStr col.name),
   ("Null?", vStr (if col.nullable then "" else "NOT NULL")),
   ("Type", vStr (col.dataType ++
     match col.length with
     | some l => if l = 0 then "" else "(" ++ toString l ++ ")"
     | none => ""))]

/-- `executeDescribe`. -/
def executeDescribe (st : Catalog) (sql : String) : Catalog × QueryResult :=
  match matchDescribe sql with
  | none => (st, { success := false, error := some "ORA-00942: table or view does not exist" })
  | some tname =>
    match mapGet st (toUpperStr tname) with
    | none =>
      (st, { success := false
             error := some ("ORA-00942: table or view does not exist: "
               ++ toUpperStr tname) })
    | some table =>
      let data : List Row := table.columns.map describeRow
      (st, { success := true
             data := some data
             columns := some ["Name", "Null?", "Type"]
             rowCount := some data.length })

/-- The guarded `eval` of a `^\d+\s*[+\-*\/]\s*\d+$` expression (exact
rational arithmetic; division by zero yields the JS specials). -/
def matchArith (s : String) : Option JSVal :=
  let l := s.data
  let d1 := digitRunLen l
  if d1 = 0 then none
  else
    let r1 := l.drop d1
    let w1 := wsRunLen r1
    match r1.drop w1 with
    | op :: rest =>
      if op = '+' ∨ op = '-' ∨ op = '*' ∨ op = '/' then
        let w2 := wsRunLen rest
        let r2 := rest.drop w2
        let d2 := digitRunLen r2
        if d2 = 0 ∨ r2.drop d2 ≠ [] then none
        else
          let a := digitsToNat (l.take d1)
          let b := digitsToNat (r2.take d2)
          some (if op = '+' then vNum (((a + b : ℕ) : ℤ) : ℚ)
            else if op = '-' then vNum (((a : ℤ) - (b : ℤ) : ℤ) : ℚ)
            else if op = '*' then vNum (((a * b : ℕ) : ℤ) : ℚ)
            else if b = 0 then (if a = 0 then vNaN else vInfinity)
            else vNum (Rat.divInt (a : ℤ) (b : ℤ)))
      else none
    | [] => none

/-- `executeDualQuery` — the expression text is trimmed, classified, and the
single-row/single-column result is keyed by that (already normalized)
expression text. -/
def executeDualQuery (env : Env) (st : Catalog) (sql : String) :
    Catalog × QueryResult :=
  match matchDualSelect sql with
  | none => (st, { success := false, error := some "ORA-00936: missing expression" })
  | some exprRaw =>
    let expression := trimStr exprRaw
    let result : JSVal :=
      if toUpperStr expression = "SYSDATE" then vStr env.today
      else if toUpperStr expression = "SYSTIMESTAMP" then vStr env.nowIso
      else if toUpperStr expression = "USER" then vStr "ORACLE_SIM"
      else
        match matchArith expression with
        | some v => v
        | none => vStr (stripQuotes expression)
    (st, { success := true
           data := some [[(expression, result)]]
           columns := some [expression]
           rowCount := some 1 })

/-! ## Dispatcher (`parseSQL`) -/

/-- `sql.trim().replace(/;$/, '')`: drop one trailing semicolon. -/
def stripTrailingSemi (s : String) : String :=
  if strEndsWith s ";" then strDropRight s 1 else s

/-- `parseSQL`: strip the terminator, normalize, classify by upper-cased
prefix (content-contains for `DUAL`), and run the matching executor.  The
`try`/`catch` fault boundary is mirrored on the one reachable exception
source (the `TypeError` thrown inside `executeUpdate`), rewrapped as
`ORA-00907: <message>`.  The `executionTime` attachment is wall-clock
measurement, outside the embedding. -/
def parseSQL (env : Env) (st : Catalog) (sql : String) : Catalog × QueryResult :=
  let cleanSQL := stripTrailingSemi (trimStr sql)
  let n := normalizeOracleSQL cleanSQL
  let u := toUpperStr n
  if strStartsWith u "SELECT" then executeSelect st n
  else if strStartsWith u "CREATE TABLE" then executeCreateTable env st n
  else if strStartsWith u "INSERT" then executeInsert st n
  else if strStartsWith u "UPDATE" then
    match executeUpdate st n with
    | (st', .ok r) => (st', r)
    | (st', .error msg) =>
      (st', { success := false, error := some ("ORA-00907: " ++ msg) })
  else if strStartsWith u "DELETE" then executeDelete st n
  else if strStartsWith u "DROP TABLE" then executeDropTable st n
  else if strStartsWith u "CREATE INDEX" then executeCreateIndex st n
  else if strStartsWith u "DESCRIBE" || strStartsWith u "DESC" then executeDescribe st n
  else if containsSub u "DUAL" then executeDualQuery env st n
  else (st, { success := false, error := some "ORA-00900: invalid SQL statement" })

/-! ## Specification-side definitions

Definitions written from the spec's (or an amended claim's) words, to be
compared with the embedded code. -/

/-- The single-node plan §4.6 of the spec prescribes, written from the
spec's words: operation `"<KIND> STATEMENT"`, upper-cased object,
`cost = max(1, floor(rows/100))`, `cardinality = rows`, `bytes = rows * 100`,
and the fixed placeholder time. -/
def specPlan (operation object : String) (rows : Nat) : ExecutionPlan :=
  { operation := toUpperStr operation ++ " STATEMENT"
    object := toUpperStr object
    cost := max 1 (rows / 100)
    cardinality := rows
    bytes := rows * 100
    time := "00:00:01" }

/-- The DESCRIBE row the amended C3 predicts for one comma-split segment of
the (normalized) definition text: Name is the upper-cased first whitespace
token of the trimmed segment, Type the second token (defaulting to
`VARCHAR2(255)` when missing or empty), and `Null?` is `NOT NULL` exactly
when the segment's upper-cased text contains `NOT NULL`. -/
def describeRowSpec (df : String) : Row :=
  let parts := splitWs (trimStr df)
  [("Name", vStr (toUpperStr (parts.headD ""))),
   ("Null?", vStr (if containsSub (toUpperStr df) "NOT NULL" then "NOT NULL" else "")),
   ("Type", vStr (match parts.drop 1 with
     | [] => "VARCHAR2(255)"
     | d :: _ => if d = "" then "VARCHAR2(255)" else d))]

/-- One DESCRIBE row per comma-split segment of the definition text. -/
def describeRowsSpec (defs : String) : List Row :=
  (splitOnChar ',' defs).map describeRowSpec

/-! ## Concrete fixtures for witnesses and counterexamples -/

/-- A fixed ambient clock for concrete runs. -/
def envW : Env := ⟨"2026-01-01", "2026-01-01T00:00:00.000Z"⟩

/-- A concrete two-column, two-row table for concrete runs. -/
def tableW : OracleTable :=
  { name := "T"
    columns := [{ name := "ID", dataType := "INTEGER", nullable := true },
                { name := "NAME", dataType := "VARCHAR(50)", nullable := true }]
    data := [[("ID", vNum 1), ("NAME", vStr "A")],
             [("ID", vNum 2), ("NAME", vStr "B")]]
    indexes := []
    constraints := []
    created := "2026-01-01T00:00:00.000Z" }

/-! ## Helper lemmas -/

theorem mapGet_mapSet_self (st : Catalog) (k : String) (v : OracleTable) :
    mapGet (mapSet st k v) k = some v := by
  induction st with
  | nil => simp [mapSet, mapGet, List.find?]
  | cons kv rest ih =>
    by_cases h : kv.1 == k
    · simp [mapSet, h, mapGet, List.find?]
    · simpa [mapSet, h, mapGet, List.find?] using ih

theorem rowGet_rowSet_self (row : Row) (k : String) (v : JSVal) :
    rowGet (rowSet row k v) k = v := by
  induction row with
  | nil => simp [rowSet, rowGet, List.find?]
  | cons kv rest ih =>
    by_cases h : kv.1 == k
    · simp [rowSet, h, rowGet, List.find?]
    · simpa [rowSet, h, rowGet, List.find?] using ih

theorem rowGet_rowSet_ne (row : Row) (k k' : String) (v : JSVal) (h : k' ≠ k) :
    rowGet (rowSet row k v) k' = rowGet row k' := by
  have h1 : (k == k') = false := beq_eq_false_iff_ne.mpr (Ne.symm h)
  induction row with
  | nil => simp [rowSet, rowGet, List.find?, h1]
  | cons kv rest ih =>
    by_cases hk : kv.1 == k
    · have hkk : kv.1 = k := by simpa using hk
      have h2 : (kv.1 == k') = false := by rw [hkk]; exact h1
      simp [rowSet, hk, rowGet, List.find?, h1, h2]
    · by_cases hk' : kv.1 == k'
      · simp [rowSet, hk, rowGet, List.find?, hk']
      · simpa [rowSet, hk, rowGet, List.find?, hk'] using ih

theorem buildNewRow_go_notMem (vals : List JSVal) (cols : List String)
    (acc : Row) (i : Nat) (k : String) (hk : k ∉ cols) :
    rowGet (buildNewRow.go vals acc cols i) k = rowGet acc k := by
  induction cols generalizing acc i with
  | nil => rfl
  | cons c cs ih =>
    have hk' : k ≠ c ∧ k ∉ cs := by
      constructor
      · intro hc; exact hk (hc ▸ List.mem_cons_self c cs)
      · intro hc; exact hk (List.mem_cons_of_mem c hc)
    rw [buildNewRow.go, ih _ _ hk'.2, rowGet_rowSet_ne _ _ _ _ hk'.1]

theorem buildNewRow_go_get (vals : List JSVal) (cols : List String)
    (acc : Row) (i : Nat) (hnd : cols.Nodup) (j : Nat) (hj : j < cols.length) :
    rowGet (buildNewRow.go vals acc cols i) (cols.get ⟨j, hj⟩)
      = vals.getD (i + j) vUndef := by
  induction cols generalizing acc i j with
  | nil => exact absurd hj (by simp)
  | cons c cs ih =>
    have hnd' := List.nodup_cons.mp hnd
    cases j with
    | zero =>
      rw [buildNewRow.go]
      show rowGet (buildNewRow.go vals (rowSet acc c (vals.getD i vUndef)) cs (i + 1)) c
        = vals.getD (i + 0) vUndef
      rw [buildNewRow_go_notMem _ _ _ _ _ hnd'.1, rowGet_rowSet_self]
      simp
    | succ j' =>
      rw [buildNewRow.go]
      have hj' : j' < cs.length := by simpa using hj
      show rowGet (buildNewRow.go vals (rowSet acc c (vals.getD i vUndef)) cs (i + 1))
          (cs.get ⟨j', hj'⟩) = vals.getD (i + (j' + 1)) vUndef
      rw [ih _ _ hnd'.2 j' hj']
      congr 1
      omega

theorem buildNewRow_get (cols : List String) (vals : List JSVal)
    (hnd : cols.Nodup) (j : Nat) (hj : j < cols.length) :
    rowGet (buildNewRow cols vals) (cols.get ⟨j, hj⟩) = vals.getD j vUndef := by
  have := buildNewRow_go_get vals cols [] 0 hnd j hj
  simpa [buildNewRow] using this

theorem buildNewRow_notMem (cols : List String) (vals : List JSVal)
    (k : String) (hk : k ∉ cols) :
    rowGet (buildNewRow cols vals) k = vUndef := by
  have := buildNewRow_go_notMem vals cols [] 0 k hk
  simpa [buildNewRow, rowGet, List.find?] using this

theorem evaluateWhereClause_eq_true_iff (row : Row) (wc : String) :
    evaluateWhereClause row wc = true ↔
      ∀ p ∈ evenIdx (splitAndOr wc), evalCond row p = true := by
  unfold evaluateWhereClause
  exact List.all_eq_true

theorem describeRow_parseOne (df : String) :
    describeRow (parseOneColumnDef df) = describeRowSpec df := by
  unfold describeRow parseOneColumnDef describeRowSpec
  cases h : containsSub (toUpperStr df) "NOT NULL" <;>
    simp [h, String.append_empty]

/-! ## The claims -/

/-- C1: the claim (and the spec) promise that an
`UPDATE <table> SET <assignments> [WHERE <cond>]` statement on an existing
table succeeds and reports the count of updated rows with singular/plural
wording.  In the code the dialect normalizer's boundary-less
`/DATE/gi → TIMESTAMP` rewrite runs before dispatch and mangles the keyword
`UPDATE` itself into `UPTIMESTAMP`, so the statement matches no dispatch
prefix and every UPDATE fails with `ORA-00900: invalid SQL statement`,
whatever the catalog holds. -/
theorem C1_update_mangled (env : Env) (st : Catalog) :
    normalizeOracleSQL "UPDATE EMP SET SAL = 100 WHERE ID = 1"
        = "UPTIMESTAMP EMP SET SAL = 100 WHERE ID = 1"
    ∧ parseSQL env st "UPDATE EMP SET SAL = 100 WHERE ID = 1"
        = (st, { success := false, error := some "ORA-00900: invalid SQL statement" }) :=
  ⟨rfl, rfl⟩

/-- C2: the claim (and the spec) promise that `SELECT SYSDATE FROM DUAL`
returns one row keyed `"SYSDATE"` holding today's date.  In the code the
normalizer rewrites `SYSDATE` (through its `DATE` substring) to
`CURRENT_TIMESTAMP` before dispatch, the statement is routed to the plain
SELECT executor by its `SELECT` prefix, and — the catalog never containing a
table `DUAL` — it fails with `ORA-00942`. -/
theorem C2_sysdate_dual_rejected (env : Env) (st : Catalog)
    (h : mapGet st "DUAL" = none) :
    parseSQL env st "SELECT SYSDATE FROM DUAL"
      = (st, { success := false,
               error := some "ORA-00942: table or view does not exist: DUAL" }) := by
  have e : parseSQL env st "SELECT SYSDATE FROM DUAL"
      = executeSelect st "SELECT CURRENT_TIMESTAMP FROM DUAL" := rfl
  rw [e]
  unfold executeSelect
  rw [show matchSelect "SELECT CURRENT_TIMESTAMP FROM DUAL"
      = some ("CURRENT_TIMESTAMP", "DUAL", none) from by decide]
  have h' : mapGet st (toUpperStr "DUAL") = none := h
  simp only [h']
  rfl

/-- C2 witness: the concrete failing run on the empty catalog. -/
theorem C2_witness :
    mapGet [] "DUAL" = none
    ∧ parseSQL envW [] "SELECT SYSDATE FROM DUAL"
      = ([], { success := false,
               error := some "ORA-00942: table or view does not exist: DUAL" }) :=
  ⟨rfl, C2_sysdate_dual_rejected envW [] rfl⟩

/-- C4: a CREATE TABLE whose upper-cased name already keys the catalog fails
with the ORA-00955 duplicate-object error, and the catalog — the existing
table included — is exactly what it was before the statement. -/
theorem C4_create_duplicate (env : Env) (st : Catalog) (sql tname defs : String)
    (hm : matchCreateTable sql = some (tname, defs))
    (hdup : mapHas st (toUpperStr tname) = true) :
    executeCreateTable env st sql
      = (st, { success := false,
               error := some ("ORA-00955: name is already used by an existing object: "
                 ++ tname) }) := by
  unfold executeCreateTable
  rw [hm]
  simp only [hdup, if_true]

/-- C4 witness: creating `t` while `T` exists fails with ORA-00955 and leaves
the catalog unchanged. -/
theorem C4_witness :
    matchCreateTable "CREATE TABLE t (X INTEGER)" = some ("t", "X INTEGER")
    ∧ mapHas [("T", tableW)] (toUpperStr "t") = true
    ∧ executeCreateTable envW [("T", tableW)] "CREATE TABLE t (X INTEGER)"
      = ([("T", tableW)],
         { success := false,
           error := some "ORA-00955: name is already used by an existing object: t" }) :=
  ⟨by decide, by decide,
   C4_create_duplicate envW [("T", tableW)] "CREATE TABLE t (X INTEGER)" "t" "X INTEGER"
     (by decide) (by decide)⟩

/-- C7: an atomic condition whose column is absent from the row (the
upper-cased lookup yields `undefined`) evaluates to false under `=`, `<`,
`>`, `<=`, `>=` and to true under `!=`/`<>`, whatever the literal value. -/
theorem C7_absent_column (row : Row) (col val : String)
    (h : rowGet row (toUpperStr col) = vUndef) :
    condSatisfied row col "=" val = false
    ∧ condSatisfied row col "<" val = false
    ∧ condSatisfied row col ">" val = false
    ∧ condSatisfied row col "<=" val = false
    ∧ condSatisfied row col ">=" val = false
    ∧ condSatisfied row col "!=" val = true
    ∧ condSatisfied row col "<>" val = true := by
  unfold condSatisfied
  rw [h]
  exact ⟨rfl, rfl, rfl, rfl, rfl, rfl, rfl⟩

/-- C7 witness: on the row `{ID: 7}`, `name = 'X'` is false and
`name != 'X'` is true. -/
theorem C7_witness :
    rowGet [("ID", vNum 7)] (toUpperStr "name") = vUndef
    ∧ condSatisfied [("ID", vNum 7)] "name" "=" "'X'" = false
    ∧ condSatisfied [("ID", vNum 7)] "name" "<=" "'X'" = false
    ∧ condSatisfied [("ID", vNum 7)] "name" "!=" "'X'" = true :=
  ⟨rfl,
   (C7_absent_column [("ID", vNum 7)] "name" "'X'" rfl).1,
   (C7_absent_column [("ID", vNum 7)] "name" "'X'" rfl).2.2.2.1,
   (C7_absent_column [("ID", vNum 7)] "name" "'X'" rfl).2.2.2.2.2.1⟩

/-- C8: the execution-plan estimator produces, for every operation label,
object name and row count, exactly the single-node plan prescribed by the
spec's formula, and its numeric fields (cost, cardinality, bytes) depend on
nothing but the row count. -/
theorem C8_plan_formula (op obj : String) (n : Nat) :
    generateExecutionPlan op obj n = specPlan op obj n
    ∧ ∀ op' obj' : String,
        (generateExecutionPlan op' obj' n).cost = (generateExecutionPlan op obj n).cost
        ∧ (generateExecutionPlan op' obj' n).cardinality
            = (generateExecutionPlan op obj n).cardinality
        ∧ (generateExecutionPlan op' obj' n).bytes
            = (generateExecutionPlan op obj n).bytes :=
  ⟨rfl, fun _ _ => ⟨rfl, rfl, rfl⟩⟩

/-- C9: the SELECT and DESCRIBE executors never change the catalog: for
every catalog and statement text the post-state equals the pre-state,
whether the statement succeeds or fails. -/
theorem C9_select_describe_frame (st : Catalog) (sql dsql : String) :
    (executeSelect st sql).1 = st ∧ (executeDescribe st dsql).1 = st := by
  constructor
  · unfold executeSelect
    split
    · rfl
    · split <;> rfl
  · unfold executeDescribe
    split
    · rfl
    · split <;> rfl

/-- C5: when every (even-indexed) piece of the AND/OR split parses as an
atomic comparison, the WHERE evaluator returns true iff every one of those
atomic conditions holds on the row; and the result depends only on the
condition pieces, never on whether the separating keyword was AND or OR. -/
theorem C5_where_conjunction (row : Row) (wc : String)
    (hall : ∀ p ∈ evenIdx (splitAndOr wc), (matchCondition (trimStr p)).isSome) :
    (evaluateWhereClause row wc = true ↔
      ∀ p ∈ evenIdx (splitAndOr wc), ∀ c o v,
        matchCondition (trimStr p) = some (c, o, v) → condSatisfied row c o v = true)
    ∧ ∀ wc' : String, evenIdx (splitAndOr wc') = evenIdx (splitAndOr wc) →
        evaluateWhereClause row wc' = evaluateWhereClause row wc := by
  constructor
  · rw [evaluateWhereClause_eq_true_iff]
    constructor
    · intro hAll p hp c o v hm
      have h1 := hAll p hp
      unfold evalCond at h1
      rw [hm] at h1
      exact h1
    · intro hCond p hp
      obtain ⟨⟨c, o, v⟩, hm⟩ := Option.isSome_iff_exists.mp (hall p hp)
      unfold evalCond
      rw [hm]
      exact hCond p hp c o v hm
  · intro wc' he
    unfold evaluateWhereClause
    rw [he]

/-- C5 witness: on the row `{A: 1}` both pieces of `A = 1 OR A = 2` parse,
and the clause evaluates to false — OR conjoins. -/
theorem C5_witness :
    ((evaluateWhereClause [("A", vNum 1)] "A = 1 OR A = 2" = true ↔
      ∀ p ∈ evenIdx (splitAndOr "A = 1 OR A = 2"), ∀ c o v,
        matchCondition (trimStr p) = some (c, o, v) →
          condSatisfied [("A", vNum 1)] c o v = true)
      ∧ ∀ wc' : String,
          evenIdx (splitAndOr wc') = evenIdx (splitAndOr "A = 1 OR A = 2") →
          evaluateWhereClause [("A", vNum 1)] wc'
            = evaluateWhereClause [("A", vNum 1)] "A = 1 OR A = 2")
    ∧ evaluateWhereClause [("A", vNum 1)] "A = 1 OR A = 2" = false :=
  ⟨C5_where_conjunction [("A", vNum 1)] "A = 1 OR A = 2" (by decide), by decide⟩

/-- C10: a WHERE piece that does not match `<identifier> <op> <value>` is
silently skipped (treated as satisfied): a clause none of whose pieces match
evaluates to true on every row, and a DELETE whose WHERE clause is such an
unparseable text removes every row of the table. -/
theorem C10_unparseable_where_skipped (row : Row) (wc : String) (st : Catalog)
    (sql tname wcd : String) (table : OracleTable)
    (hskip : ∀ p ∈ evenIdx (splitAndOr wc), matchCondition (trimStr p) = none)
    (hd : matchDelete sql = some (tname, some wcd))
    (ht : mapGet st (toUpperStr tname) = some table)
    (hwd : ∀ p ∈ evenIdx (splitAndOr wcd), matchCondition (trimStr p) = none) :
    evaluateWhereClause row wc = true
    ∧ mapGet (executeDelete st sql).1 (toUpperStr tname)
        = some { table with data := [] }
    ∧ (executeDelete st sql).2.rowCount = some table.data.length := by
  have hTrue : ∀ (r : Row) (w : String),
      (∀ p ∈ evenIdx (splitAndOr w), matchCondition (trimStr p) = none) →
      evaluateWhereClause r w = true := by
    intro r w hw
    rw [evaluateWhereClause_eq_true_iff]
    intro p hp
    unfold evalCond
    rw [hw p hp]
  have hnewData : (if wcd = "" then ([] : List Row)
      else table.data.filter (fun row => !evaluateWhereClause row wcd))
      = ([] : List Row) := by
    by_cases hempty : wcd = ""
    · simp [hempty]
    · simp only [hempty, if_false]
      rw [List.filter_eq_nil_iff]
      intro r hr
      simp [hTrue r wcd hwd]
  have hrun : executeDelete st sql
      = (mapSet st (toUpperStr tname) { table with data := [] },
         { success := true
           message := some (toString table.data.length ++ " row"
             ++ (if table.data.length ≠ 1 then "s" else "") ++ " deleted.")
           rowCount := some table.data.length }) := by
    unfold executeDelete
    rw [hd]
    simp only [ht, hnewData]
    simp
  exact ⟨hTrue row wc hskip, by rw [hrun]; exact mapGet_mapSet_self _ _ _, by rw [hrun]⟩

/-- C10 witness: `STATUS LIKE 'X'` contains no piece of the atomic shape, so
every row satisfies it; and the concrete DELETE whose WHERE clause is
`NAME LIKE 'A%'` empties the two-row table, reporting both rows deleted. -/
theorem C10_witness :
    evaluateWhereClause [("ID", vNum 1)] "STATUS LIKE 'X'" = true
    ∧ mapGet (executeDelete [("T", tableW)] "DELETE FROM T WHERE NAME LIKE 'A%'").1
        (toUpperStr "T") = some { tableW with data := [] }
    ∧ (executeDelete [("T", tableW)] "DELETE FROM T WHERE NAME LIKE 'A%'").2.rowCount
        = some tableW.data.length :=
  C10_unparseable_where_skipped [("ID", vNum 1)] "STATUS LIKE 'X'" [("T", tableW)]
    "DELETE FROM T WHERE NAME LIKE 'A%'" "T" "NAME LIKE 'A%'" tableW
    (by decide) (by decide) (by decide) (by decide)

/-- C3 counterexample: `CREATE TABLE T (id NUMBER)` declares one column `id`
of type `NUMBER`; the normalizer rewrites the type to `DECIMAL(38,10)` before
parsing and the comma-blind definition split then yields *two* columns, so
the subsequent DESCRIBE returns two rows — `("ID", "", "DECIMAL(38")` and
`("10)", "", "VARCHAR2(255)")` — not one row with the declared name, type
and nullability. -/
theorem C3_counterexample :
    ((parseSQL envW [] "CREATE TABLE T (id NUMBER)").2.success = true)
    ∧ (parseSQL envW (parseSQL envW [] "CREATE TABLE T (id NUMBER)").1
        "DESCRIBE T").2.data
      = some [[("Name", vStr "ID"), ("Null?", vStr ""), ("Type", vStr "DECIMAL(38")],
              [("Name", vStr "10)"), ("Null?", vStr ""), ("Type", vStr "VARCHAR2(255)")]]
    ∧ (parseSQL envW (parseSQL envW [] "CREATE TABLE T (id NUMBER)").1
        "DESCRIBE T").2.data
      ≠ some [[("Name", vStr "id"), ("Null?", vStr ""), ("Type", vStr "NUMBER")]] :=
  ⟨by decide, by decide, by decide⟩

/-- C3 (amended): after a successful CREATE TABLE whose (already normalized)
definition text is `defs`, DESCRIBE of that table returns one row per
comma-split segment of `defs`: Name is the segment's upper-cased first
whitespace token, Type its second token (default `VARCHAR2(255)`), and
`Null?` is empty exactly when the segment does not contain `NOT NULL` — the
declared text is reproduced only up to dialect normalization, upper-casing
of the name, and the comma-blind split. -/
theorem C3_create_then_describe (env : Env) (st : Catalog)
    (sql dsql tname defs dname : String)
    (hc : matchCreateTable sql = some (tname, defs))
    (hfresh : mapHas st (toUpperStr tname) = false)
    (hd : matchDescribe dsql = some dname)
    (hmatch : toUpperStr dname = toUpperStr tname) :
    (executeCreateTable env st sql).2.success = true
    ∧ (executeDescribe (executeCreateTable env st sql).1 dsql).2.data
        = some (describeRowsSpec defs) := by
  have hcreate : executeCreateTable env st sql
      = (mapSet st (toUpperStr tname)
          { name := toUpperStr tname
            columns := parseColumnDefinitions defs
            data := []
            indexes := []
            constraints := []
            created := env.nowIso },
         { success := true
           message := some ("Table " ++ tname ++ " created.")
           rowCount := some 0 }) := by
    unfold executeCreateTable
    rw [hc]
    simp [hfresh]
  constructor
  · rw [hcreate]
  · rw [hcreate]
    unfold executeDescribe
    simp only [hd, hmatch, mapGet_mapSet_self]
    unfold describeRowsSpec parseColumnDefinitions
    rw [List.map_map]
    congr 2
    funext df
    exact describeRow_parseOne df

/-- C3 witness for the amended claim: a concrete create-then-describe run
with a two-column definition list. -/
theorem C3_witness :
    matchCreateTable "CREATE TABLE S (A INTEGER, B VARCHAR(10) NOT NULL)"
      = some ("S", "A INTEGER, B VARCHAR(10) NOT NULL")
    ∧ (executeDescribe
        (executeCreateTable envW []
          "CREATE TABLE S (A INTEGER, B VARCHAR(10) NOT NULL)").1
        "DESCRIBE S").2.data
      = some (describeRowsSpec "A INTEGER, B VARCHAR(10) NOT NULL") :=
  ⟨by decide,
   (C3_create_then_describe envW []
      "CREATE TABLE S (A INTEGER, B VARCHAR(10) NOT NULL)" "DESCRIBE S" "S"
      "A INTEGER, B VARCHAR(10) NOT NULL" "S"
      (by decide) (by decide) (by decide) (by decide)).2⟩

/-- C6: INSERT on an existing table parses the value list, resolves the
column list (explicit list split on commas, else the declared columns),
assigns values to columns positionally — excess values are silently dropped,
and a column past the end of the value list reads back `undefined`, i.e. is
absent — appends exactly one row, raises no error, and always reports
"1 row created." with row count 1. -/
theorem C6_insert_positional (st : Catalog) (sql tname valueList : String)
    (colList : Option String) (table : OracleTable)
    (hm : matchInsert sql = some (tname, colList, valueList))
    (ht : mapGet st (toUpperStr tname) = some table) :
    executeInsert st sql
      = (mapSet st (toUpperStr tname)
          { table with data := table.data
              ++ [buildNewRow (insertColumns table colList) (parseValues valueList)] },
         { success := true, message := some "1 row created.", rowCount := some 1 })
    ∧ ((insertColumns table colList).Nodup →
        ∀ (j : ℕ) (hj : j < (insertColumns table colList).length),
          rowGet (buildNewRow (insertColumns table colList) (parseValues valueList))
              ((insertColumns table colList).get ⟨j, hj⟩)
            = (parseValues valueList).getD j vUndef)
    ∧ ∀ k, k ∉ insertColumns table colList →
        rowGet (buildNewRow (insertColumns table colList) (parseValues valueList)) k
          = vUndef := by
  refine ⟨?_, ?_, ?_⟩
  · unfold executeInsert
    rw [hm]
    simp only [ht]
  · intro hnd j hj
    exact buildNewRow_get _ _ hnd j hj
  · intro k hk
    exact buildNewRow_notMem _ _ k hk

/-- C6 witness: inserting three values into the two-column table drops the
excess third value, appends one row, reports "1 row created." with row count
1, and the new row holds nothing under any key outside the column list. -/
theorem C6_witness :
    executeInsert [("T", tableW)] "INSERT INTO T VALUES (1, 'A', 99)"
      = (mapSet [("T", tableW)] (toUpperStr "T")
          { tableW with data := tableW.data
              ++ [buildNewRow (insertColumns tableW none) (parseValues "1, 'A', 99")] },
         { success := true, message := some "1 row created.", rowCount := some 1 })
    ∧ rowGet (buildNewRow (insertColumns tableW none) (parseValues "1, 'A', 99")) "EXTRA"
        = vUndef :=
  ⟨(C6_insert_positional [("T", tableW)] "INSERT INTO T VALUES (1, 'A', 99)" "T"
      "1, 'A', 99" none tableW (by decide) (by decide)).1,
   (C6_insert_positional [("T", tableW)] "INSERT INTO T VALUES (1, 'A', 99)" "T"
      "1, 'A', 99" none tableW (by decide) (by decide)).2.2 "EXTRA" (by decide)⟩

end OracleSim
